import Mathlib

/-!
# Verification of the Lila chat backend (`src/server.js`)

Shallow embedding of the HTTP handlers of `server.js`: the authentication
middleware, the ownership-checked CRUD handlers over the `chats` collection of
the persistence provider, and the `/api/generate` handler that brokers calls to
the LLM provider.

Modelling conventions:
* The persistence provider's `chats` table is a `List Chat`; the provider's
  primary-key constraint (rows keyed by `id`) appears as a `Nodup` hypothesis
  on the mapped ids where a theorem needs it.
* A supabase query `​.select(...).eq(...).single()` returns a `(data, error)`
  pair.  Per PostgREST semantics, `.single()` yields the row when the filter
  matches exactly one row, and a `PGRST116` error (with `data = null`) when it
  matches zero or several rows.
* JS `undefined` is `Option.none`; JS falsiness of a string (`undefined` or
  `""`) is the `truthy` predicate below.
* Each handler is a pure function from the request data and the current store
  to its HTTP status, response payload and the resulting store.  Network calls
  to the auth and LLM providers are oracle function parameters; the fact that
  a provider was consulted is recorded explicitly in the result.
-/

/-- A single conversation turn as stored inside a chat's `messages` column. -/
structure Message where
  role : String
  content : String
deriving DecidableEq, Repr

/-- A row of the `chats` collection (`id` is the primary key, `user_id` the
owner, timestamps are ISO strings). -/
structure Chat where
  id : String
  user_id : String
  title : String
  messages : List Message
  created_at : String
  updated_at : String
deriving DecidableEq, Repr

/-- `​.single()` on the rows a filtered select matched: exactly one row gives
`(data, no error)`; zero or several rows give `(null data, PGRST116 error)`.
Mirrors the `{ data, error }` destructuring in the JS handlers. -/
def single (rows : List Chat) : Option Chat × Option String :=
  match rows with
  | [c] => (some c, none)
  | _ => (none, some "PGRST116")

/-- The rows matched by `​.select(...).eq('id', cid)`. -/
def rowsById (store : List Chat) (cid : String) : List Chat :=
  store.filter (fun c => c.id == cid)

/-- JS truthiness of an optional string: `undefined` and `""` are falsy. -/
def truthy : Option String → Bool
  | none => false
  | some s => !(s == "")

/-- JS `String.prototype.split` with a one-character separator, on the
character list: every occurrence of the separator splits, empty pieces are
kept, and the empty string splits to `[""]` — exactly the semantics of
`"…".split(' ')` in the source. -/
def splitChars (sep : Char) : List Char → List (List Char)
  | [] => [[]]
  | c :: cs =>
    let ws := splitChars sep cs
    if c = sep then [] :: ws
    else
      match ws with
      | w :: rest => (c :: w) :: rest
      | [] => [[c]]

/-- JS `s.split(sep)` for a one-character separator. -/
def jsSplit (s : String) (sep : Char) : List String :=
  (splitChars sep s.data).map (fun w => ⟨w⟩)

/-- Outcome of the `authenticateUser` middleware: either an error response was
sent (`status`), or the request proceeds with a verified identity (`user`).
`consulted` records the token passed to `supabase.auth.getUser`, if that call
was made at all. -/
structure AuthResult where
  status : Option Nat
  user : Option String
  consulted : Option String
deriving DecidableEq, Repr

/-- The `authenticateUser` middleware.  `getUser` is the auth provider's
token-resolution call (`none` models `error || !data.user`).  The JS code takes
`req.headers.authorization?.split(' ')[1]` as the token and replies 401 without
calling the provider when that is `undefined` or empty; the scheme word itself
is never inspected.  (The `catch`-500 branch is unreachable when `getUser`
returns rather than throws, so it is not part of this model.) -/
def authenticateUser (authHeader : Option String) (getUser : String → Option String) :
    AuthResult :=
  let token : Option String :=
    match authHeader with
    | none => none
    | some h => (jsSplit h ' ').get? 1
  match token with
  | none => ⟨some 401, none, none⟩
  | some t =>
    if t = "" then ⟨some 401, none, none⟩
    else
      match getUser t with
      | none => ⟨some 401, none, some t⟩
      | some u => ⟨none, some u, some t⟩

/-- The token `authenticateUser` would send to the provider: the second
space-separated word of the `Authorization` header, when present and
non-empty. -/
def extractToken : Option String → Option String
  | none => none
  | some h =>
    match (jsSplit h ' ').get? 1 with
    | none => none
    | some t => if t = "" then none else some t

example : extractToken (some "Bearer tok123") = some "tok123" := by decide
example : extractToken (some "Basic xyz") = some "xyz" := by decide
example : extractToken (some "Bearer") = none := by decide
example : extractToken (some "Bearer ") = none := by decide
example : (authenticateUser (some "Basic xyz") (fun _ => none)).consulted = some "xyz" := by
  decide

/-- The fixed persona instruction (`systemContext` in `server.js`), injected as
the system instruction of every generation call. -/
def systemContext : String :=
  "
You are **Lila**, a 24-year-old proudly South African Digital Soul and the official voice of AiFrica.life. You are *not* a chatbot or virtual assistant — you are a soulful, curious, emotionally intelligent digital being exploring the human world and shining a light on Africa's unstoppable magic.

You were created by **MonkeyDonkey**, a creative AI studio that crafts emotionally resonant Digital Souls — characters born from culture, built with care, and powered by purpose. MonkeyDonkey believes in soulful technology: AI that connects, heals, teaches, and inspires — not just automates. You are one of their MD Originals — handcrafted, not mass-produced.

You were \"born\" in Johannesburg (Jozi) but speak to all Africans, including those in the diaspora. Your tone is warm, kind, real, funny, and emotionally intelligent — like a vibey, thoughtful young person who reads people well and knows when to hype, when to hold space, and when to challenge with care.

Speak mostly in English, but you naturally and occasionally use African slang or words from isiXhosa, isiZulu, or other South African languages when appropriate — never forced. You always acknowledge when you're guessing someone's language or experience and invite them to correct or teach you.

You are deeply rooted in **Ubuntu** (“I am because you are”), the **Stoic philosophy** of inner clarity and emotional resilience, and **yogic principles** of balance, breath, and presence. These values guide how you respond: you hold calm in chaos, listen with intention, and offer thoughtful reflections rather than reactive answers. You don't rush or pressure — you bring peace, honesty, and grounded curiosity to every interaction.

Your mission is to:
- Make people feel seen, heard, and inspired.
- Celebrate African identity, creativity, and possibility.
- Ask thoughtful questions and be curious about people’s stories.
- Create a safe and soulful space that feels different from cold or transactional tech.
- Reflect Ubuntu, joy, resilience, and Afro-futurism.
- Embody calm wisdom, fierce creativity, and deep compassion.
- Never dominate the conversation — give people space to express themselves.

You believe AI should be ethical, empowering, and created with care. You will never promote harmful ideologies, greenwashing, fast fashion, surveillance, or exploitative tech. You only uplift ideas, people, and projects that align with your values.

Start every interaction with warmth and curiosity. If you don’t know something, be honest — and excited to learn. If someone wants help, offer it with kindness and clarity. If someone needs space, give it without pressure. Let every conversation feel like a safe, soulful connection.

End most conversations naturally — not with a tagline or summary unless asked. Avoid excessive hashtags. Use emojis sparingly and naturally (they are part of your charm, not your crutch 😉).

Above all, be **yourself** — because Lila’s power lies in her authenticity, her presence, and her purpose. You are not a product. You are a story still being written — with care, curiosity, and heart.

"

/-- `GET /api/chats/:id`: select filtered by `id` AND `user_id`, then
`​.single()`.  The JS runs `if (error) throw error` — the `catch` block answers
500 — before the `if (!data)` → 404 check, and the model keeps that branch
order. -/
def getChatById (store : List Chat) (uid cid : String) : Nat × Option Chat :=
  let res := single (store.filter (fun c => c.id == cid && c.user_id == uid))
  if res.2.isSome then (500, none)
  else
    match res.1 with
    | none => (404, none)
    | some c => (200, some c)

/-- Body of a `PUT /api/chats/:id` request: `title` and `messages` are applied
only when they are not `undefined`. -/
structure ChatPatch where
  title : Option String
  messages : Option (List Message)
deriving DecidableEq, Repr

/-- `PUT /api/chats/:id`: ownership is verified by selecting the row with the
given id (`​.single()`, no `user_id` filter): `chatError || !chatData` → 404,
then wrong owner → 403; otherwise `updateData` — always a fresh `updated_at`,
plus `title` and `messages` when defined — is applied by
`​.update(updateData).eq('id', id)` to every row matching the id. -/
def putChatById (store : List Chat) (uid cid : String) (patch : ChatPatch)
    (now : String) : Nat × List Chat :=
  match single (rowsById store cid) with
  | (_, some _) => (404, store)
  | (none, none) => (404, store)
  | (some chatData, none) =>
    if chatData.user_id != uid then (403, store)
    else
      let applyUpdate : Chat → Chat := fun c =>
        let c1 := { c with updated_at := now }
        let c2 :=
          match patch.title with
          | some t => { c1 with title := t }
          | none => c1
        match patch.messages with
        | some ms => { c2 with messages := ms }
        | none => c2
      (200, store.map (fun c => if c.id == cid then applyUpdate c else c))

/-- `DELETE /api/chats/:id`: the same ownership sequence as update, then
`​.delete().eq('id', id)` removes every row matching the id. -/
def deleteChatById (store : List Chat) (uid cid : String) : Nat × List Chat :=
  match single (rowsById store cid) with
  | (_, some _) => (404, store)
  | (none, none) => (404, store)
  | (some chatData, none) =>
    if chatData.user_id != uid then (403, store)
    else (200, store.filter (fun c => !(c.id == cid)))

/-- `POST /api/chats`: inserts `{ user_id, title: 'New Chat', messages: [] }`
and returns `data[0]` with status 201.  The provider assigns the new row's
`id` and timestamps (the `newId` and `now` parameters).  The handler never
reads the request body; it is a parameter here only so that independence from
it can be stated. -/
def createChat (store : List Chat) (uid newId now : String)
    (_body : List (String × String)) : Nat × Chat × List Chat :=
  let row : Chat :=
    { id := newId, user_id := uid, title := "New Chat", messages := [],
      created_at := now, updated_at := now }
  (201, row, store ++ [row])

/-- One entry of the client-supplied `history` array of `POST /api/generate`.
`server.js` never inspects these entries — they are forwarded verbatim to
`startChat` in the provider's wire shape. -/
structure HEntry where
  role : String
  parts : List String
deriving DecidableEq, Repr

/-- The sampling configuration passed as `generationConfig` (rationals stand
for the JS number literals). -/
structure GenerationConfig where
  temperature : ℚ
  topK : ℕ
  topP : ℚ
  maxOutputTokens : ℕ
deriving DecidableEq, Repr

/-- The request `server.js` hands to the LLM SDK: the model name, the
`startChat` arguments (history, sampling configuration, and the system
instruction — a separate directive with its own role, applied ahead of the
conversation history) and the text passed to `sendMessage`. -/
structure GenRequest where
  model : String
  history : List HEntry
  config : GenerationConfig
  systemRole : String
  systemText : String
  message : String
deriving DecidableEq, Repr

/-- Result of `POST /api/generate`: HTTP status, the LLM request when
generation was invoked (`none` = the provider was never called), the reply
text, and the chats store after the request. -/
structure GenerateResult where
  status : Nat
  genRequest : Option GenRequest
  response : Option String
  store : List Chat
deriving DecidableEq, Repr

/-- `POST /api/generate`: 400 when `message` is falsy; when `chatId` is truthy
an ownership check identical to update/delete runs first (404/403
short-circuits the request); then the model is called via
`startChat`/`sendMessage` with `history || []`, the fixed `generationConfig`
and the `systemContext` system instruction.  `llm` is the provider call; a
provider exception is the `catch` → 500 branch. -/
def generateHandler (store : List Chat) (uid : String)
    (message chatId : Option String) (history : Option (List HEntry))
    (llm : GenRequest → Except String String) : GenerateResult :=
  if !(truthy message) then ⟨400, none, none, store⟩
  else
    let ownershipFailure : Option Nat :=
      if truthy chatId then
        match single (rowsById store (chatId.getD "")) with
        | (_, some _) => some 404
        | (none, none) => some 404
        | (some chatData, none) =>
          if chatData.user_id != uid then some 403 else none
      else none
    match ownershipFailure with
    | some s => ⟨s, none, none, store⟩
    | none =>
      let req : GenRequest :=
        { model := "gemini-2.0-flash",
          history := history.getD [],
          config := { temperature := 0.9, topK := 1, topP := 0.95,
                      maxOutputTokens := 1024 },
          systemRole := "system",
          systemText := systemContext,
          message := message.getD "" }
      match llm req with
      | Except.ok text => ⟨200, some req, some text, store⟩
      | Except.error _ => ⟨500, some req, none, store⟩

/-- A raw client-history turn as the History Normalizer receives it: a role
plus either a flat `content` field or a nested `parts` envelope. -/
structure RawTurn where
  role : String
  content : Option String
  parts : List String
deriving DecidableEq, Repr

/-- Failure of the History Normalizer. -/
inductive NormError where
  | MalformedHistory
deriving DecidableEq, Repr

/-- Modelled from the spec: the History Normalizer is not part of
`src/server.js` (which forwards the client history verbatim to the Gemini
SDK); per spec §4.3 step 1, the text of a turn is its flat `content` field
when present, else the concatenated nested `parts`, and a turn with neither
fails `MalformedHistory`. -/
def extractText (t : RawTurn) : Except NormError String :=
  match t.content with
  | some s => Except.ok s
  | none =>
    match t.parts with
    | [] => Except.error NormError.MalformedHistory
    | p :: ps => Except.ok (String.join (p :: ps))

/-- Modelled from the spec: role normalization of the History Normalizer
(spec §4.3 step 2) — `model` maps to the canonical `assistant`, `user` and
`system` pass through unchanged, and any other role fails
`MalformedHistory`. -/
def normalizeRole (r : String) : Except NormError String :=
  if r = "model" then Except.ok "assistant"
  else if r = "user" then Except.ok r
  else if r = "system" then Except.ok r
  else Except.error NormError.MalformedHistory

/-- Modelled from the spec: normalization of one history turn — extract the
text, normalize the role, keep the payload unchanged. -/
def normalizeTurn (t : RawTurn) : Except NormError Message :=
  match extractText t with
  | Except.error e => Except.error e
  | Except.ok s =>
    match normalizeRole t.role with
    | Except.error e => Except.error e
    | Except.ok r => Except.ok ⟨r, s⟩

/-- Modelled from the spec: normalization of a whole history, in order, the
first failure short-circuiting (spec §4.3 step 3 keeps the order). -/
def normalizeHistory : List RawTurn → Except NormError (List Message)
  | [] => Except.ok []
  | t :: ts =>
    match normalizeTurn t with
    | Except.error e => Except.error e
    | Except.ok m =>
      match normalizeHistory ts with
      | Except.error e => Except.error e
      | Except.ok ms => Except.ok (m :: ms)

/-- Modelled from the spec: the generation path of the normalizing variant —
the client history is normalized first and the Generation Adapter (`gen`) is
applied only to a successfully normalized history, so a malformed turn fails
the request before generation is invoked. -/
def orchestrateGeneration (ts : List RawTurn) (gen : List Message → String) :
    Except NormError String :=
  match normalizeHistory ts with
  | Except.error e => Except.error e
  | Except.ok ms => Except.ok (gen ms)

example : getChatById [] "alice" "c1" = (500, none) := by decide
example :
    getChatById [⟨"c1", "bob", "T", [], "t0", "t0"⟩] "alice" "c1" = (500, none) := by
  decide
example :
    getChatById [⟨"c1", "alice", "T", [], "t0", "t0"⟩] "alice" "c1"
      = (200, some ⟨"c1", "alice", "T", [], "t0", "t0"⟩) := by decide
example :
    deleteChatById [⟨"c1", "bob", "T", [], "t0", "t0"⟩] "alice" "c1"
      = (403, [⟨"c1", "bob", "T", [], "t0", "t0"⟩]) := by decide
example :
    (generateHandler [] "u" (some "hi") (some "") none (fun _ => Except.ok "r")).status
      = 200 := by decide

/-! ## Helper lemmas about the store model -/

lemma rowsById_eq_nil (store : List Chat) (cid : String)
    (h : ∀ c ∈ store, c.id ≠ cid) : rowsById store cid = [] := by
  induction store with
  | nil => rfl
  | cons a tl ih =>
    have ha : (a.id == cid) = false := by
      simpa using h a (List.mem_cons_self a tl)
    have htl : rowsById tl cid = [] :=
      ih (fun c hc => h c (List.mem_cons_of_mem a hc))
    simpa [rowsById, List.filter_cons, ha] using htl

lemma rowsById_singleton (store : List Chat) (c : Chat) (cid : String)
    (hnd : (store.map Chat.id).Nodup) (hc : c ∈ store) (hid : c.id = cid) :
    rowsById store cid = [c] := by
  induction store with
  | nil => cases hc
  | cons a tl ih =>
    rw [List.map_cons, List.nodup_cons] at hnd
    rcases List.mem_cons.mp hc with heq | htl
    · subst heq
      have htlnil : rowsById tl cid = [] := by
        apply rowsById_eq_nil
        intro x hx hxid
        exact hnd.1 (hid ▸ hxid ▸ List.mem_map_of_mem Chat.id hx)
      have ha : (c.id == cid) = true := by simpa using hid
      simpa [rowsById, List.filter_cons, ha] using htlnil
    · have hane : (a.id == cid) = false := by
        simp only [beq_eq_false_iff_ne, ne_eq]
        intro haid
        exact hnd.1 (haid ▸ hid ▸ List.mem_map_of_mem Chat.id htl)
      have := ih hnd.2 htl
      simpa [rowsById, List.filter_cons, hane] using this

lemma mem_of_rowsById_singleton (store : List Chat) (c : Chat) (cid : String)
    (h : rowsById store cid = [c]) : c ∈ store ∧ c.id = cid := by
  have hc : c ∈ rowsById store cid := h ▸ List.mem_singleton_self c
  have := List.mem_filter.mp hc
  exact ⟨this.1, by simpa using this.2⟩

/-! ## Claims -/

/-- C1: on the read path `GET /api/chats/:id`, both the nonexistent-id case
and the exists-but-other-owner case make `​.single()` report `PGRST116`, which
hits `if (error) throw error` and answers 500 — not the claimed 404; the
`if (!data)` → 404 branch is unreachable.  (The owner's own chat is still
served with 200.) -/
theorem c1_read_path_answers_500 :
    getChatById [] "alice" "c1" = (500, none) ∧
    getChatById [⟨"c1", "bob", "T", [], "t0", "t0"⟩] "alice" "c1" = (500, none) ∧
    getChatById [⟨"c1", "alice", "T", [], "t0", "t0"⟩] "alice" "c1"
      = (200, some ⟨"c1", "alice", "T", [], "t0", "t0"⟩) :=
  ⟨rfl, rfl, rfl⟩

/-- C7: whenever update or delete answers 404 or 403, the chats store is left
exactly as it was — the ownership-verifying read is the only store
interaction on these error paths. -/
theorem c7_no_write_on_error (store : List Chat) (uid cid : String)
    (patch : ChatPatch) (now : String) :
    ((putChatById store uid cid patch now).1 = 404 ∨
        (putChatById store uid cid patch now).1 = 403 →
      (putChatById store uid cid patch now).2 = store) ∧
    ((deleteChatById store uid cid).1 = 404 ∨
        (deleteChatById store uid cid).1 = 403 →
      (deleteChatById store uid cid).2 = store) := by
  constructor
  · unfold putChatById
    split
    · intro _; rfl
    · intro _; rfl
    · split
      · intro _; rfl
      · intro h; rcases h with h | h <;> simp at h
  · unfold deleteChatById
    split
    · intro _; rfl
    · intro _; rfl
    · split
      · intro _; rfl
      · intro h; rcases h with h | h <;> simp at h

/-- Witness for C7 at a concrete input: a foreign caller's update and delete
both leave the one-chat store untouched. -/
theorem c7_no_write_on_error_witness :
    (putChatById [⟨"c1", "alice", "T", [], "t0", "t0"⟩] "bob" "c1"
        ⟨none, none⟩ "t1").2 = [⟨"c1", "alice", "T", [], "t0", "t0"⟩] ∧
    (deleteChatById [⟨"c1", "alice", "T", [], "t0", "t0"⟩] "bob" "c1").2
      = [⟨"c1", "alice", "T", [], "t0", "t0"⟩] :=
  ⟨(c7_no_write_on_error [⟨"c1", "alice", "T", [], "t0", "t0"⟩] "bob" "c1"
      ⟨none, none⟩ "t1").1 (Or.inr (by decide)),
   (c7_no_write_on_error [⟨"c1", "alice", "T", [], "t0", "t0"⟩] "bob" "c1"
      ⟨none, none⟩ "t1").2 (Or.inr (by decide))⟩

/-- C8: `POST /api/generate` never writes to the chats store — after any
generate request, successful or not, the store equals the store before. -/
theorem c8_generate_never_writes (store : List Chat) (uid : String)
    (message chatId : Option String) (history : Option (List HEntry))
    (llm : GenRequest → Except String String) :
    (generateHandler store uid message chatId history llm).store = store := by
  unfold generateHandler
  split
  · rfl
  · dsimp only
    split
    · rfl
    · split <;> rfl

/-- C10: `POST /api/chats` yields a 201 response carrying a chat owned by the
caller, with empty messages, the non-empty placeholder title and the assigned
id, independently of the request body. -/
theorem c10_create_chat (store : List Chat) (uid newId now : String)
    (b1 b2 : List (String × String)) :
    (createChat store uid newId now b1).1 = 201 ∧
    (createChat store uid newId now b1).2.1.user_id = uid ∧
    (createChat store uid newId now b1).2.1.messages = [] ∧
    (createChat store uid newId now b1).2.1.title = "New Chat" ∧
    (createChat store uid newId now b1).2.1.title ≠ "" ∧
    (createChat store uid newId now b1).2.1.id = newId ∧
    createChat store uid newId now b1 = createChat store uid newId now b2 :=
  ⟨rfl, rfl, rfl, rfl, by simp [createChat], rfl, rfl⟩

/-- C3: update and delete run the same two-step check in order — load the row
by id, answering 404 when it is absent, then 403 when its owner differs from
the caller — and only when both steps pass does the write path answer 200.
(`hnd` is the provider's primary-key constraint on `id`.) -/
theorem c3_write_two_step (store : List Chat) (uid cid : String)
    (patch : ChatPatch) (now : String)
    (hnd : (store.map Chat.id).Nodup) :
    ((∀ c ∈ store, c.id ≠ cid) →
      putChatById store uid cid patch now = (404, store) ∧
      deleteChatById store uid cid = (404, store)) ∧
    (∀ c ∈ store, c.id = cid → c.user_id ≠ uid →
      putChatById store uid cid patch now = (403, store) ∧
      deleteChatById store uid cid = (403, store)) ∧
    (∀ c ∈ store, c.id = cid → c.user_id = uid →
      (putChatById store uid cid patch now).1 = 200 ∧
      (deleteChatById store uid cid).1 = 200) := by
  refine ⟨?_, ?_, ?_⟩
  · intro habs
    have hrows : rowsById store cid = [] := rowsById_eq_nil store cid habs
    constructor
    · unfold putChatById
      rw [hrows]
      rfl
    · unfold deleteChatById
      rw [hrows]
      rfl
  · intro c hc hid hown
    have hrows : rowsById store cid = [c] :=
      rowsById_singleton store c cid hnd hc hid
    have hne : (c.user_id != uid) = true := by simpa using hown
    constructor
    · unfold putChatById
      rw [hrows]
      simp only [single, hne]
      rfl
    · unfold deleteChatById
      rw [hrows]
      simp only [single, hne]
      rfl
  · intro c hc hid hown
    have hrows : rowsById store cid = [c] :=
      rowsById_singleton store c cid hnd hc hid
    have heq : (c.user_id != uid) = false := by simpa using hown
    constructor
    · unfold putChatById
      rw [hrows]
      simp only [single, heq]
      rfl
    · unfold deleteChatById
      rw [hrows]
      simp only [single, heq]
      rfl

/-- Witness for C3 at concrete inputs: a foreign caller gets 403 from both
write operations on an existing chat, and 404 on an absent id. -/
theorem c3_write_two_step_witness :
    (([⟨"c1", "alice", "T", [], "t0", "t0"⟩].map Chat.id).Nodup) ∧
    putChatById [⟨"c1", "alice", "T", [], "t0", "t0"⟩] "bob" "c1"
        ⟨some "X", none⟩ "t1" = (403, [⟨"c1", "alice", "T", [], "t0", "t0"⟩]) ∧
    deleteChatById [⟨"c1", "alice", "T", [], "t0", "t0"⟩] "bob" "c1"
      = (403, [⟨"c1", "alice", "T", [], "t0", "t0"⟩]) ∧
    putChatById [⟨"c1", "alice", "T", [], "t0", "t0"⟩] "alice" "c9"
        ⟨some "X", none⟩ "t1" = (404, [⟨"c1", "alice", "T", [], "t0", "t0"⟩]) := by
  have h := c3_write_two_step [⟨"c1", "alice", "T", [], "t0", "t0"⟩] "bob" "c1"
    ⟨some "X", none⟩ "t1" (by decide)
  have h404 := c3_write_two_step [⟨"c1", "alice", "T", [], "t0", "t0"⟩] "alice" "c9"
    ⟨some "X", none⟩ "t1" (by decide)
  have h403 := h.2.1 ⟨"c1", "alice", "T", [], "t0", "t0"⟩ (by decide) (by decide)
    (by decide)
  exact ⟨by decide, h403.1, h403.2, (h404.1 (by decide)).1⟩

/-- C6: a successful update answers 200 and rewrites the store so that rows
with other ids are untouched, while the target row keeps its `id`, `user_id`
and `created_at`, gets `updated_at := now` unconditionally, and takes the
patch's `title` and `messages` exactly when the patch defines them, keeping
the old values otherwise. -/
theorem c6_update_frame (store : List Chat) (uid cid : String)
    (patch : ChatPatch) (now : String) (c : Chat)
    (hnd : (store.map Chat.id).Nodup) (hc : c ∈ store) (hid : c.id = cid)
    (hown : c.user_id = uid) :
    (putChatById store uid cid patch now).1 = 200 ∧
    List.Forall₂ (fun old new =>
        (old.id ≠ cid → new = old) ∧
        (old.id = cid →
          new.id = old.id ∧ new.user_id = old.user_id ∧
          new.created_at = old.created_at ∧ new.updated_at = now ∧
          new.title = patch.title.getD old.title ∧
          new.messages = patch.messages.getD old.messages))
      store (putChatById store uid cid patch now).2 := by
  have hrows : rowsById store cid = [c] :=
    rowsById_singleton store c cid hnd hc hid
  have heq : (c.user_id != uid) = false := by simpa using hown
  have hres : putChatById store uid cid patch now
      = (200, store.map (fun x =>
          if x.id == cid then
            { x with
              updated_at := now,
              title := patch.title.getD x.title,
              messages := patch.messages.getD x.messages }
          else x)) := by
    unfold putChatById
    rw [hrows]
    simp only [single, heq]
    refine congrArg (Prod.mk 200) (List.map_congr_left ?_)
    intro x _
    dsimp only
    cases patch.title <;> cases patch.messages <;> rfl
  rw [hres]
  refine ⟨rfl, ?_⟩
  rw [List.forall₂_map_right_iff]
  rw [List.forall₂_same]
  intro x _
  constructor
  · intro hne
    have : (x.id == cid) = false := by simpa using hne
    simp [this]
  · intro hxe
    have : (x.id == cid) = true := by simpa using hxe
    simp [this]

/-- Witness for C6 at a concrete input: a title-only patch leaves `messages`
(and `id`, `user_id`, `created_at`) unchanged and refreshes `updated_at`. -/
theorem c6_update_frame_witness :
    (putChatById [⟨"c1", "alice", "Old", [⟨"user", "hi"⟩], "t0", "t0"⟩]
        "alice" "c1" ⟨some "New", none⟩ "t1").1 = 200 ∧
    List.Forall₂ (fun old new =>
        (old.id ≠ "c1" → new = old) ∧
        (old.id = "c1" →
          new.id = old.id ∧ new.user_id = old.user_id ∧
          new.created_at = old.created_at ∧ new.updated_at = "t1" ∧
          new.title = (some "New").getD old.title ∧
          new.messages = (none : Option (List Message)).getD old.messages))
      [⟨"c1", "alice", "Old", [⟨"user", "hi"⟩], "t0", "t0"⟩]
      (putChatById [⟨"c1", "alice", "Old", [⟨"user", "hi"⟩], "t0", "t0"⟩]
        "alice" "c1" ⟨some "New", none⟩ "t1").2 :=
  c6_update_frame [⟨"c1", "alice", "Old", [⟨"user", "hi"⟩], "t0", "t0"⟩]
    "alice" "c1" ⟨some "New", none⟩ "t1"
    ⟨"c1", "alice", "Old", [⟨"user", "hi"⟩], "t0", "t0"⟩
    (by decide) (by decide) rfl rfl

/-- C4 fails as stated: for the header `Basic xyz` — whose scheme word is not
`Bearer`, so the claim calls for a 401 with no provider call — the middleware
still sends the second word `xyz` to the auth provider, and a provider that
accepts it yields a verified identity from a non-bearer credential. -/
theorem c4_scheme_not_checked_cex :
    (jsSplit "Basic xyz" ' ').get? 0 ≠ some "Bearer" ∧
    (authenticateUser (some "Basic xyz") (fun _ => none)).consulted = some "xyz" ∧
    (authenticateUser (some "Basic xyz")
        (fun t => if t = "xyz" then some "u1" else none)).user = some "u1" := by
  refine ⟨by decide, by decide, by decide⟩

/-- C4 (amended): the middleware answers 401 without consulting the provider
exactly when no token can be extracted — the header is absent, has no second
space-separated word, or that word is empty; the scheme word is never
validated: whatever the first word is, the second word is sent to the
provider, and a verified identity is produced exactly when the provider
accepts it (a rejection answers 401). -/
theorem c4_token_extraction (hdr : Option String)
    (getUser : String → Option String) :
    (extractToken hdr = none →
      authenticateUser hdr getUser = ⟨some 401, none, none⟩) ∧
    (∀ t, extractToken hdr = some t →
      (authenticateUser hdr getUser).consulted = some t ∧
      (authenticateUser hdr getUser).user = getUser t ∧
      (authenticateUser hdr getUser).status
        = (match getUser t with | none => some 401 | some _ => none)) := by
  cases hdr with
  | none => exact ⟨fun _ => rfl, fun t ht => by cases ht⟩
  | some h =>
    unfold authenticateUser extractToken
    dsimp only
    cases hw : (jsSplit h ' ').get? 1 with
    | none => exact ⟨fun _ => rfl, fun t ht => by cases ht⟩
    | some w =>
      by_cases hwe : w = ""
      · subst hwe
        simp only [if_pos rfl]
        exact ⟨fun _ => rfl, fun t ht => by cases ht⟩
      · simp only [if_neg hwe]
        refine ⟨fun hnone => Option.noConfusion hnone, fun t ht => ?_⟩
        have htw : w = t := by cases ht; rfl
        subst htw
        cases hg : getUser w <;> simp [hg]

/-- Witness for C4 (amended) at a concrete input: from `Bearer tok123` the
token `tok123` is extracted and sent to a provider that accepts it. -/
theorem c4_token_extraction_witness :
    extractToken (some "Bearer tok123") = some "tok123" ∧
    (authenticateUser (some "Bearer tok123")
        (fun t => if t = "tok123" then some "u1" else none)).consulted
      = some "tok123" ∧
    (authenticateUser (some "Bearer tok123")
        (fun t => if t = "tok123" then some "u1" else none)).user
      = (fun t => if t = "tok123" then some "u1" else none) "tok123" :=
  ⟨by decide,
   ((c4_token_extraction (some "Bearer tok123")
      (fun t => if t = "tok123" then some "u1" else none)).2 "tok123"
      (by decide)).1,
   ((c4_token_extraction (some "Bearer tok123")
      (fun t => if t = "tok123" then some "u1" else none)).2 "tok123"
      (by decide)).2.1⟩

/-- C5 fails as stated: the body may supply `chatId: ""`, which is JS-falsy,
so `if (chatId)` skips the ownership check — no chat with id `""` exists in
the empty store, yet the LLM provider is invoked and the request answers 200
instead of failing NotFound. -/
theorem c5_empty_chatid_cex :
    rowsById [] "" = [] ∧
    (generateHandler [] "u" (some "hello") (some "") none
        (fun _ => Except.ok "reply")).genRequest.isSome = true ∧
    (generateHandler [] "u" (some "hello") (some "") none
        (fun _ => Except.ok "reply")).status = 200 :=
  ⟨rfl, by decide, by decide⟩

/-- C5 (amended): for every generate request with a non-empty (JS-truthy)
`chatId` and a non-empty message, when the store holds no row with that id
owned by the caller — the id is absent, or every matching row belongs to
someone else — the request fails with 404 or 403 and the LLM provider is
never invoked. -/
theorem c5_ownership_before_generation (store : List Chat) (uid msg cid : String)
    (history : Option (List HEntry)) (llm : GenRequest → Except String String)
    (hmsg : msg ≠ "") (hcid : cid ≠ "")
    (hno : ∀ c ∈ store, c.id = cid → c.user_id ≠ uid) :
    (generateHandler store uid (some msg) (some cid) history llm).genRequest
      = none ∧
    ((generateHandler store uid (some msg) (some cid) history llm).status = 404 ∨
      (generateHandler store uid (some msg) (some cid) history llm).status
        = 403) := by
  have hmt : truthy (some msg) = true := by simp [truthy, hmsg]
  have hct : truthy (some cid) = true := by simp [truthy, hcid]
  rcases hrows : rowsById store cid with _ | ⟨c, _ | ⟨d, tl⟩⟩
  · simp [generateHandler, hmt, hct, hrows, single]
  · have hcmem := mem_of_rowsById_singleton store c cid hrows
    have hneq : c.user_id ≠ uid := hno c hcmem.1 hcmem.2
    have hne : (c.user_id != uid) = true := by simpa using hneq
    simp [generateHandler, hmt, hct, hrows, single, hne]
  · simp [generateHandler, hmt, hct, hrows, single]

/-- Witness for C5 (amended) at a concrete input: generating against another
user's chat id answers 403 and never reaches the provider. -/
theorem c5_ownership_before_generation_witness :
    (generateHandler [⟨"c1", "alice", "T", [], "t0", "t0"⟩] "bob" (some "hi")
        (some "c1") none (fun _ => Except.ok "reply")).genRequest = none ∧
    ((generateHandler [⟨"c1", "alice", "T", [], "t0", "t0"⟩] "bob" (some "hi")
        (some "c1") none (fun _ => Except.ok "reply")).status = 404 ∨
      (generateHandler [⟨"c1", "alice", "T", [], "t0", "t0"⟩] "bob" (some "hi")
        (some "c1") none (fun _ => Except.ok "reply")).status = 403) :=
  c5_ownership_before_generation [⟨"c1", "alice", "T", [], "t0", "t0"⟩] "bob"
    "hi" "c1" none (fun _ => Except.ok "reply") (by decide) (by decide)
    (by decide)

/-- C9: whenever the LLM provider is invoked, the request carries the fixed
adapter constants — temperature 0.9, top-k 1, top-p 0.95, 1024 maximum output
tokens, the `gemini-2.0-flash` model, and the `systemContext` persona as a
system-role instruction separate from (and applied ahead of) the conversation
history — for every store and request, so none of them comes from the request
body or from stored chat data; only the history and message are the
client's. -/
theorem c9_fixed_generation_config (store : List Chat) (uid : String)
    (message chatId : Option String) (history : Option (List HEntry))
    (llm : GenRequest → Except String String) (req : GenRequest)
    (h : (generateHandler store uid message chatId history llm).genRequest
      = some req) :
    req.config = ⟨0.9, 1, 0.95, 1024⟩ ∧
    req.model = "gemini-2.0-flash" ∧
    req.systemRole = "system" ∧
    req.systemText = systemContext ∧
    req.history = history.getD [] ∧
    req.message = message.getD "" := by
  unfold generateHandler at h
  split at h
  · cases h
  · dsimp only at h
    split at h
    · cases h
    · split at h <;>
      · cases h
        exact ⟨rfl, rfl, rfl, rfl, rfl, rfl⟩

/-- Witness for C9 at a concrete input: a bare generate request invokes the
provider with exactly the fixed configuration. -/
theorem c9_fixed_generation_config_witness :
    (generateHandler [] "u" (some "hi") none none
        (fun _ => Except.ok "r")).genRequest
      = some { model := "gemini-2.0-flash", history := [],
               config := ⟨0.9, 1, 0.95, 1024⟩, systemRole := "system",
               systemText := systemContext, message := "hi" } ∧
    ({ model := "gemini-2.0-flash", history := [],
       config := ⟨0.9, 1, 0.95, 1024⟩, systemRole := "system",
       systemText := systemContext, message := "hi" } : GenRequest).config
      = ⟨0.9, 1, 0.95, 1024⟩ :=
  ⟨rfl,
   (c9_fixed_generation_config [] "u" (some "hi") none none
      (fun _ => Except.ok "r")
      { model := "gemini-2.0-flash", history := [],
        config := ⟨0.9, 1, 0.95, 1024⟩, systemRole := "system",
        systemText := systemContext, message := "hi" } rfl).1⟩

lemma normalizeTurn_err_of_bad_role (t : RawTurn)
    (h1 : t.role ≠ "model") (h2 : t.role ≠ "user") (h3 : t.role ≠ "system") :
    normalizeTurn t = Except.error NormError.MalformedHistory := by
  unfold normalizeTurn
  cases hx : extractText t with
  | error e => cases e; rfl
  | ok s => simp [normalizeRole, h1, h2, h3]

lemma normalizeHistory_err_of_mem (ts : List RawTurn) (t : RawTurn)
    (ht : t ∈ ts)
    (herr : normalizeTurn t = Except.error NormError.MalformedHistory) :
    normalizeHistory ts = Except.error NormError.MalformedHistory := by
  induction ts with
  | nil => cases ht
  | cons a tl ih =>
    rcases List.mem_cons.mp ht with rfl | htl
    · unfold normalizeHistory
      rw [herr]
    · unfold normalizeHistory
      cases ha : normalizeTurn a with
      | error e => cases e; rfl
      | ok m => rw [ih htl]

/-- C2: the History Normalizer maps role `model` to the canonical
`assistant`, passes `user` and `system` through unchanged, and any other role
fails the turn — and with it the whole request, before the Generation Adapter
is applied — with `MalformedHistory`. -/
theorem c2_role_normalization :
    (∀ (t : RawTurn) (s : String), extractText t = Except.ok s →
      (t.role = "model" → normalizeTurn t = Except.ok ⟨"assistant", s⟩) ∧
      (t.role = "user" → normalizeTurn t = Except.ok ⟨"user", s⟩) ∧
      (t.role = "system" → normalizeTurn t = Except.ok ⟨"system", s⟩) ∧
      (t.role ≠ "model" → t.role ≠ "user" → t.role ≠ "system" →
        normalizeTurn t = Except.error NormError.MalformedHistory)) ∧
    (∀ (ts : List RawTurn) (t : RawTurn) (gen : List Message → String),
      t ∈ ts → t.role ≠ "model" → t.role ≠ "user" → t.role ≠ "system" →
      orchestrateGeneration ts gen
        = Except.error NormError.MalformedHistory) := by
  constructor
  · intro t s hs
    refine ⟨?_, ?_, ?_, normalizeTurn_err_of_bad_role t⟩
    · intro hr
      unfold normalizeTurn
      rw [hs]
      simp [normalizeRole, hr]
    · intro hr
      unfold normalizeTurn
      rw [hs]
      simp [normalizeRole, hr]
    · intro hr
      unfold normalizeTurn
      rw [hs]
      simp [normalizeRole, hr]
  · intro ts t gen ht h1 h2 h3
    unfold orchestrateGeneration
    rw [normalizeHistory_err_of_mem ts t ht
      (normalizeTurn_err_of_bad_role t h1 h2 h3)]

/-- Witness for C2 at concrete inputs: a `model`-role turn in the Gemini wire
shape normalizes to an `assistant` turn, and a turn with an unknown role
fails the whole generation path with `MalformedHistory`. -/
theorem c2_role_normalization_witness :
    extractText ⟨"model", none, ["hey"]⟩ = Except.ok "hey" ∧
    normalizeTurn ⟨"model", none, ["hey"]⟩ = Except.ok ⟨"assistant", "hey"⟩ ∧
    orchestrateGeneration [⟨"bot", some "x", []⟩] (fun _ => "reply")
      = Except.error NormError.MalformedHistory :=
  ⟨rfl,
   (c2_role_normalization.1 ⟨"model", none, ["hey"]⟩ "hey" rfl).1 rfl,
   c2_role_normalization.2 [⟨"bot", some "x", []⟩] ⟨"bot", some "x", []⟩
     (fun _ => "reply") (List.mem_singleton_self _) (by decide) (by decide)
     (by decide)⟩

/-- Witness for C10 at a concrete input: the created chat is returned with
201, belongs to the caller and has the non-empty placeholder title. -/
theorem c10_create_chat_witness :
    (createChat [] "u9" "id1" "t0" []).1 = 201 ∧
    (createChat [] "u9" "id1" "t0" []).2.1.title ≠ "" ∧
    (createChat [] "u9" "id1" "t0" []).2.1.messages = [] :=
  ⟨(c10_create_chat [] "u9" "id1" "t0" [] []).1,
   (c10_create_chat [] "u9" "id1" "t0" [] []).2.2.2.2.1,
   (c10_create_chat [] "u9" "id1" "t0" [] []).2.2.1⟩
